import Mathlib

set_option maxHeartbeats 1000000

/-!
Shallow embedding of the QuickCut Pro Monday.com webhook reconciliation
adapter (the serverless `handler` in `api/monday-webhook.ts`) together with
the persisted `projects` schema from the initial SQL migration.

Modelling conventions:
* JavaScript runtime values are the inductive `JValue`; a JS object is an
  association chain built with `jobj` (JS object literals have unique keys,
  so first-key lookup matches JS property access).
* `undefined` is `Option.none` wherever a value may be absent; property
  access through possibly-undefined values (`a?.b`) is `oget`.
* `JSON.parse` is an external library call, so it enters as a parameter
  `pj : String → Option JValue`; `pj s = none` models a thrown parse error.
* The Supabase store is an in-memory list of `projects` rows; `maybeSingle`
  mirrors the PostgREST contract (error when the filter matches two or more
  rows).  The store credentials are assumed configured (line 37 of the
  source would otherwise turn every request into a 500).
* Read/write traffic against the store is recorded as a list of `Effect`s
  so that claims about issuing no reads or writes are statable.
* JS strings are UTF-16 code-unit sequences; the emoji-stripping regex of
  the priority branch operates on code units, so `cleanPriority` converts
  to UTF-16 units, filters, re-pairs surrogates and trims.  A lone
  surrogate left by the filter is decoded as U+FFFD.
-/

/-- JavaScript values (JSON-compatible fragment).  Objects are association
chains: `jobjCons k v rest`; `jobjNil` is the empty object. -/
inductive JValue where
  | jnull : JValue
  | jbool : Bool → JValue
  | jnum : Int → JValue
  | jstr : String → JValue
  | jobjNil : JValue
  | jobjCons : String → JValue → JValue → JValue
  deriving DecidableEq, Repr

/-- Build a JS object from a key/value list. -/
def jobj : List (String × JValue) → JValue
  | [] => JValue.jobjNil
  | (k, v) :: rest => JValue.jobjCons k v (jobj rest)

/-- JS property access `o[key]`: `none` is `undefined` (also for access on
non-objects, which never yields the named property here). -/
def JValue.getField : JValue → String → Option JValue
  | JValue.jobjCons k v rest, key => if k = key then some v else rest.getField key
  | _, _ => none

/-- JS truthiness of a possibly-undefined value. -/
def truthy : Option JValue → Bool
  | none => false
  | some JValue.jnull => false
  | some (JValue.jbool b) => b
  | some (JValue.jnum n) => !decide (n = 0)
  | some (JValue.jstr s) => !decide (s = "")
  | some JValue.jobjNil => true
  | some (JValue.jobjCons _ _ _) => true

/-- Optional-chained property access `a?.b`. -/
def oget (v : Option JValue) (key : String) : Option JValue :=
  v.bind (fun j => j.getField key)

/-- JS `a || b`: first truthy operand, else the last operand. -/
def jsOr (a b : Option JValue) : Option JValue :=
  if truthy a then a else b

/-- JS `String(v)` as used by the query builder when serialising an `eq`
filter value. -/
def jsToString : JValue → String
  | JValue.jnull => "null"
  | JValue.jbool true => "true"
  | JValue.jbool false => "false"
  | JValue.jnum n => toString n
  | JValue.jstr s => s
  | JValue.jobjNil => "[object Object]"
  | JValue.jobjCons _ _ _ => "[object Object]"

/-- Lines 106-112 of the handler (and, with identical semantics, the body
parse of lines 43-47): parse a string value, falling back to the raw value
when the parse throws; non-strings pass through untouched. -/
def safeParse (pj : String → Option JValue) : Option JValue → Option JValue
  | some (JValue.jstr s) =>
      match pj s with
      | some j => some j
      | none => some (JValue.jstr s)
  | v => v

/-- UTF-16 code units of a string (JS string semantics). -/
def utf16Units (s : String) : List Nat :=
  s.data.foldr
    (fun c acc =>
      if c.toNat < 0x10000 then c.toNat :: acc
      else (0xD800 + (c.toNat - 0x10000) / 0x400)
             :: (0xDC00 + (c.toNat - 0x10000) % 0x400) :: acc)
    []

/-- One code unit matched by the character class of the priority-branch
regex: the code-unit ranges U+2700 to U+27BF, U+E000 to U+F8FF,
U+D83C to U+DBFF and U+DC00 to U+DFFF. -/
def emojiRegexUnit (u : Nat) : Bool :=
  decide ((0x2700 ≤ u ∧ u ≤ 0x27BF) ∨ (0xE000 ≤ u ∧ u ≤ 0xF8FF) ∨
          (0xD83C ≤ u ∧ u ≤ 0xDBFF) ∨ (0xDC00 ≤ u ∧ u ≤ 0xDFFF))

/-- Decode one unpaired UTF-16 unit; an unpaired surrogate becomes U+FFFD. -/
def decodeUnit (u : Nat) : Char :=
  if 0xD800 ≤ u ∧ u ≤ 0xDFFF then Char.ofNat 0xFFFD else Char.ofNat u

/-- Re-pair a UTF-16 code-unit sequence into characters. -/
def decodeUtf16 : List Nat → List Char
  | [] => []
  | [u] => [decodeUnit u]
  | u :: l :: rest =>
      if (0xD800 ≤ u ∧ u ≤ 0xDBFF) ∧ (0xDC00 ≤ l ∧ l ≤ 0xDFFF) then
        Char.ofNat (0x10000 + (u - 0xD800) * 0x400 + (l - 0xDC00)) :: decodeUtf16 rest
      else
        decodeUnit u :: decodeUtf16 (l :: rest)

/-- The JS `String.prototype.trim` whitespace set (WhiteSpace and
LineTerminator code points). -/
def jsWhitespace (c : Char) : Bool :=
  decide (c.toNat = 9 ∨ c.toNat = 10 ∨ c.toNat = 11 ∨ c.toNat = 12 ∨
          c.toNat = 13 ∨ c.toNat = 32 ∨ c.toNat = 0xA0 ∨ c.toNat = 0x1680 ∨
          (0x2000 ≤ c.toNat ∧ c.toNat ≤ 0x200A) ∨ c.toNat = 0x2028 ∨
          c.toNat = 0x2029 ∨ c.toNat = 0x202F ∨ c.toNat = 0x205F ∨
          c.toNat = 0x3000 ∨ c.toNat = 0xFEFF)

/-- Drop whitespace from both ends (JS `trim`). -/
def jsTrim (cs : List Char) : List Char :=
  ((cs.dropWhile jsWhitespace).reverse.dropWhile jsWhitespace).reverse

/-- Lines 129-132: `text.replace(emojiRegex, "").trim()` with JS UTF-16
code-unit regex semantics. -/
def cleanPriority (s : String) : String :=
  String.mk (jsTrim (decodeUtf16 ((utf16Units s).filter (fun u => !emojiRegexUnit u))))

/-- The seven MONDAY_*_COL_ID environment variables (lines 8-14), assumed
configured. -/
structure Config where
  nameCol : String
  statusCol : String
  priorityCol : String
  fileCol : String
  dueDateCol : String
  grantAccessCol : String
  feedbackCol : String
  deriving DecidableEq, Repr

/-- One row of the persisted `projects` table (migration lines 67-80).
The two trigger-stamped timestamp columns are store-managed and never
read or written by the handler, so they are not part of the row model. -/
structure Project where
  id : String
  user_id : String
  monday_item_id : Option String
  name : String
  status : String
  priority : String
  due_date : Option String
  file_url : Option String
  file_name : Option String
  grant_view : Bool
  deriving DecidableEq, Repr

/-- The record store: the `projects` table contents. -/
structure DB where
  rows : List Project
  deriving DecidableEq, Repr

/-- An inbound HTTP request: method plus optional JSON body (the body may
itself be a string, which the handler parses defensively). -/
structure Request where
  method : String
  body : Option JValue
  deriving DecidableEq, Repr

/-- An HTTP response: status code plus JSON body. -/
structure Response where
  status : Nat
  body : JValue
  deriving DecidableEq, Repr

/-- Store operations the handler can issue, in issue order. -/
inductive Effect where
  | selectByMondayItemId : String → Effect
  | selectById : String → Effect
  | selectAllDebug : Effect
  | updateRow : String → List (String × JValue) → Effect
  deriving DecidableEq, Repr

/-- PostgREST `maybeSingle`: zero rows is `none`, one row is that row, two
or more rows is an error. -/
def maybeSingle (rows : List Project) (pred : Project → Bool) :
    Except String (Option Project) :=
  match rows.filter pred with
  | [] => Except.ok none
  | [p] => Except.ok (some p)
  | _ :: _ :: _ => Except.error "Cannot coerce the result to a single JSON object"

/-- Filter of `.eq(monday_item_id, pulseId)`: a null column matches nothing. -/
def byMondayItemId (pid : String) : Project → Bool :=
  fun p => decide (p.monday_item_id = some pid)

/-- Filter of `.eq(id, pulseId)`. -/
def byId (pid : String) : Project → Bool :=
  fun p => decide (p.id = pid)

/-- Lines 62-104: the two-step lookup.  First an exact match on
`monday_item_id`; only if that yields no row, an exact match on `id`.
Returns the lookup outcome together with the reads issued. -/
def findProject (db : DB) (pid : String) :
    Except String (Option Project) × List Effect :=
  match maybeSingle db.rows (byMondayItemId pid) with
  | Except.error e => (Except.error e, [Effect.selectByMondayItemId pid])
  | Except.ok (some p) => (Except.ok (some p), [Effect.selectByMondayItemId pid])
  | Except.ok none =>
      match maybeSingle db.rows (byId pid) with
      | Except.error e =>
          (Except.error e, [Effect.selectByMondayItemId pid, Effect.selectById pid])
      | Except.ok r =>
          (Except.ok r, [Effect.selectByMondayItemId pid, Effect.selectById pid])

/-- Lines 120-169: the switch over `event.columnId`.  The result is the
`updates` record as an assignment list; `Except.error` models the one
reachable thrown TypeError (calling `.replace` on a truthy non-string
`v.label.text` in the priority branch). -/
def dispatch (cfg : Config) (columnId : Option JValue) (v : Option JValue)
    (rawValue : Option JValue) : Except Unit (List (String × JValue)) :=
  if columnId = some (JValue.jstr cfg.statusCol) then
    if truthy (oget (oget v "label") "text") then
      Except.ok [("status", (oget (oget v "label") "text").getD JValue.jnull)]
    else Except.ok []
  else if columnId = some (JValue.jstr cfg.priorityCol) then
    if truthy (oget (oget v "label") "text") then
      match oget (oget v "label") "text" with
      | some (JValue.jstr s) => Except.ok [("priority", JValue.jstr (cleanPriority s))]
      | _ => Except.error ()
    else Except.ok []
  else if columnId = some (JValue.jstr cfg.fileCol) then
    if truthy v then
      Except.ok
        [("file_url", (jsOr (oget v "url") (jsOr (oget v "text") rawValue)).getD JValue.jnull),
         ("file_name", (jsOr (oget v "text") (some (JValue.jstr "Project File"))).getD JValue.jnull)]
    else Except.ok []
  else if columnId = some (JValue.jstr cfg.dueDateCol) then
    if truthy (oget v "date") then
      Except.ok [("due_date", (oget v "date").getD JValue.jnull)]
    else Except.ok []
  else if columnId = some (JValue.jstr cfg.grantAccessCol) then
    Except.ok [("grant_view", JValue.jbool (decide (oget v "checked" = some (JValue.jbool true) ∨
                                                    oget v "checked" = some (JValue.jstr "true"))))]
  else if columnId = some (JValue.jstr cfg.feedbackCol) then
    if truthy (oget v "text") then
      Except.ok [("feedback", (oget v "text").getD JValue.jnull)]
    else Except.ok []
  else if columnId = some (JValue.jstr cfg.nameCol) then
    if truthy (oget v "text") then
      Except.ok [("name", (oget v "text").getD JValue.jnull)]
    else Except.ok []
  else Except.ok []

/-- The columns of the persisted `projects` table (migration lines 67-80). -/
def projectsColumns : List String :=
  ["id", "user_id", "monday_item_id", "name", "status", "priority",
   "due_date", "file_url", "file_name", "grant_view", "created_at", "updated_at"]

/-- Whether one assignment of the update payload names an existing,
handler-writable column with a value of the matching type.  The constants
of an UPDATE statement are validated once, up front, by the store. -/
def validAssign : String → JValue → Bool
  | "name", JValue.jstr _ => true
  | "status", JValue.jstr _ => true
  | "priority", JValue.jstr _ => true
  | "due_date", JValue.jstr _ => true
  | "file_url", JValue.jstr _ => true
  | "file_name", JValue.jstr _ => true
  | "grant_view", JValue.jbool _ => true
  | _, _ => false

/-- Apply one valid assignment to a row (total; invalid assignments are
ruled out by `validAssign` before any row is touched). -/
def setColumnTotal (p : Project) : String → JValue → Project
  | "name", JValue.jstr s => { p with name := s }
  | "status", JValue.jstr s => { p with status := s }
  | "priority", JValue.jstr s => { p with priority := s }
  | "due_date", JValue.jstr s => { p with due_date := some s }
  | "file_url", JValue.jstr s => { p with file_url := some s }
  | "file_name", JValue.jstr s => { p with file_name := some s }
  | "grant_view", JValue.jbool b => { p with grant_view := b }
  | _, _ => p

/-- Apply a whole update payload to a row. -/
def applySet (updates : List (String × JValue)) (p : Project) : Project :=
  updates.foldl (fun q kv => setColumnTotal q kv.1 kv.2) p

/-- Lines 173-179: `update(updates).eq(id, project.id)`.  An assignment
naming an unknown column (or carrying a value of the wrong type) is a
store error before any row changes; otherwise every row with the given id
receives exactly the listed assignments. -/
def dbUpdate (db : DB) (rowId : String) (updates : List (String × JValue)) :
    Except String DB :=
  if updates.all (fun kv => validAssign kv.1 kv.2) then
    Except.ok ⟨db.rows.map (fun p => if p.id = rowId then applySet updates p else p)⟩
  else Except.error "Could not find the column in the schema cache"

/-- Lines 185-190: the success envelope. -/
def successBody (projectId : String) (updates : List (String × JValue)) : JValue :=
  jobj [("success", JValue.jbool true),
        ("message", JValue.jstr "Webhook processed successfully"),
        ("projectId", JValue.jstr projectId),
        ("updates", jobj updates)]

/-- Lines 96-100: the not-found envelope, echoing the attempted pulseId. -/
def notFoundBody (pulseId : JValue) : JValue :=
  jobj [("error", JValue.jstr "Project not found"),
        ("pulseId", pulseId),
        ("message", JValue.jstr "Check if monday_item_id is correctly stored in Supabase")]

/-- The webhook handler, lines 26-195 of the source, as a pure function
from (configuration, JSON parser, request, store) to (response, new store,
issued store operations). -/
def handler (cfg : Config) (pj : String → Option JValue) (req : Request) (db : DB) :
    Response × DB × List Effect :=
  if req.method = "OPTIONS" then
    (⟨200, jobj [("ok", JValue.jbool true)]⟩, db, [])
  else if truthy (oget req.body "challenge") then
    (⟨200, jobj [("challenge", (oget req.body "challenge").getD JValue.jnull)]⟩, db, [])
  else if req.method ≠ "POST" then
    (⟨405, jobj [("error", JValue.jstr "Method not allowed")]⟩, db, [])
  else
    let payload := safeParse pj req.body
    let event := oget payload "event"
    let pulseId := oget event "pulseId"
    if truthy pulseId = false then
      (⟨400, jobj [("error", JValue.jstr "Invalid webhook payload - missing pulseId")]⟩, db, [])
    else
      let pid := jsToString (pulseId.getD JValue.jnull)
      match findProject db pid with
      | (Except.error e, effs) => (⟨500, jobj [("error", JValue.jstr e)]⟩, db, effs)
      | (Except.ok none, effs) =>
          (⟨404, notFoundBody (pulseId.getD JValue.jnull)⟩, db,
           effs ++ [Effect.selectAllDebug])
      | (Except.ok (some project), effs) =>
          let v := safeParse pj (oget event "value")
          match dispatch cfg (oget event "columnId") v (oget event "value") with
          | Except.error _ =>
              (⟨500, jobj [("error", JValue.jstr "v.label.text.replace is not a function")]⟩,
               db, effs)
          | Except.ok updates =>
              if 0 < updates.length then
                match dbUpdate db project.id updates with
                | Except.error e =>
                    (⟨500, jobj [("error", JValue.jstr e)]⟩, db,
                     effs ++ [Effect.updateRow project.id updates])
                | Except.ok db2 =>
                    (⟨200, successBody project.id updates⟩, db2,
                     effs ++ [Effect.updateRow project.id updates])
              else
                (⟨200, successBody project.id updates⟩, db, effs)

/-- Wellformedness of the store guaranteed by the schema: `id` is a
primary key and `monday_item_id` is unique when present, so any exact
filter on either column matches at most one row. -/
def DB.WF (db : DB) : Prop :=
  (∀ pid : String, (db.rows.filter (byMondayItemId pid)).length ≤ 1) ∧
  (∀ pid : String, (db.rows.filter (byId pid)).length ≤ 1)

/-- Whether a columnId hits any case of the dispatch switch. -/
def recognizedColumn (cfg : Config) (c : Option JValue) : Bool :=
  decide (c = some (JValue.jstr cfg.statusCol)) ||
  decide (c = some (JValue.jstr cfg.priorityCol)) ||
  decide (c = some (JValue.jstr cfg.fileCol)) ||
  decide (c = some (JValue.jstr cfg.dueDateCol)) ||
  decide (c = some (JValue.jstr cfg.grantAccessCol)) ||
  decide (c = some (JValue.jstr cfg.feedbackCol)) ||
  decide (c = some (JValue.jstr cfg.nameCol))

lemma oget_some (e : JValue) (k : String) : oget (some e) k = e.getField k := rfl

lemma truthy_none : truthy none = false := rfl

lemma safeParse_obj (pj : String → Option JValue) (k : String) (v rest : JValue) :
    safeParse pj (some (JValue.jobjCons k v rest)) = some (JValue.jobjCons k v rest) := rfl

lemma maybeSingle_nil {rows : List Project} {pred : Project → Bool}
    (h : rows.filter pred = []) : maybeSingle rows pred = Except.ok none := by
  unfold maybeSingle
  rw [h]

lemma maybeSingle_single {rows : List Project} {pred : Project → Bool} {p : Project}
    (h : rows.filter pred = [p]) : maybeSingle rows pred = Except.ok (some p) := by
  unfold maybeSingle
  rw [h]

lemma filter_eq_singleton_of_mem {rows : List Project} {pred : Project → Bool}
    {p : Project} (hmem : p ∈ rows) (hp : pred p = true)
    (hle : (rows.filter pred).length ≤ 1) : rows.filter pred = [p] := by
  have hm : p ∈ rows.filter pred := List.mem_filter.mpr ⟨hmem, hp⟩
  cases hf : rows.filter pred with
  | nil => rw [hf] at hm; cases hm
  | cons a t =>
    cases t with
    | nil =>
      rw [hf] at hm
      have hpa : p = a := by simpa using hm
      rw [hpa]
    | cons b t2 =>
      rw [hf] at hle
      simp [List.length_cons] at hle

lemma filter_eq_nil_of_none {rows : List Project} {pred : Project → Bool}
    (h : ∀ q ∈ rows, pred q = false) : rows.filter pred = [] := by
  induction rows with
  | nil => rfl
  | cons a t ih =>
    have ha := h a (List.mem_cons_self a t)
    simp [List.filter, ha]
    intro q hq
    exact h q (List.mem_cons_of_mem a hq)

lemma findProject_found_monday {db : DB} {pid : String} {p : Project}
    (hwf : db.WF) (hmem : p ∈ db.rows) (hp : p.monday_item_id = some pid) :
    findProject db pid = (Except.ok (some p), [Effect.selectByMondayItemId pid]) := by
  have h1 : db.rows.filter (byMondayItemId pid) = [p] :=
    filter_eq_singleton_of_mem hmem (by simp [byMondayItemId, hp]) (hwf.1 pid)
  unfold findProject
  rw [maybeSingle_single h1]

lemma findProject_found_id {db : DB} {pid : String} {p : Project} (hwf : db.WF)
    (hnone : ∀ q ∈ db.rows, q.monday_item_id ≠ some pid)
    (hmem : p ∈ db.rows) (hp : p.id = pid) :
    findProject db pid =
      (Except.ok (some p), [Effect.selectByMondayItemId pid, Effect.selectById pid]) := by
  have h0 : db.rows.filter (byMondayItemId pid) = [] :=
    filter_eq_nil_of_none (fun q hq => by simp [byMondayItemId, hnone q hq])
  have h1 : db.rows.filter (byId pid) = [p] :=
    filter_eq_singleton_of_mem hmem (by simp [byId, hp]) (hwf.2 pid)
  unfold findProject
  rw [maybeSingle_nil h0, maybeSingle_single h1]

lemma findProject_none {db : DB} {pid : String}
    (hm : ∀ q ∈ db.rows, q.monday_item_id ≠ some pid)
    (hi : ∀ q ∈ db.rows, q.id ≠ pid) :
    findProject db pid =
      (Except.ok none, [Effect.selectByMondayItemId pid, Effect.selectById pid]) := by
  have h0 : db.rows.filter (byMondayItemId pid) = [] :=
    filter_eq_nil_of_none (fun q hq => by simp [byMondayItemId, hm q hq])
  have h1 : db.rows.filter (byId pid) = [] :=
    filter_eq_nil_of_none (fun q hq => by simp [byId, hi q hq])
  unfold findProject
  rw [maybeSingle_nil h0, maybeSingle_nil h1]

lemma maybeSingle_ok_of_le_one {rows : List Project} {pred : Project → Bool}
    (h : (rows.filter pred).length ≤ 1) :
    maybeSingle rows pred = Except.ok (rows.filter pred).head? := by
  cases hf : rows.filter pred with
  | nil => unfold maybeSingle; rw [hf]; rfl
  | cons a t =>
    cases t with
    | nil => unfold maybeSingle; rw [hf]; rfl
    | cons b t2 =>
      rw [hf] at h
      simp [List.length_cons] at h

lemma findProject_ok {db : DB} (hwf : db.WF) (pid : String) :
    ∃ r effs, findProject db pid = (Except.ok r, effs) := by
  unfold findProject
  rw [maybeSingle_ok_of_le_one (hwf.1 pid)]
  cases hf : (db.rows.filter (byMondayItemId pid)).head? with
  | some p => exact ⟨some p, _, rfl⟩
  | none =>
    rw [maybeSingle_ok_of_le_one (hwf.2 pid)]
    exact ⟨_, _, rfl⟩

lemma wf_singleton (p : Project) : DB.WF ⟨[p]⟩ := by
  constructor <;> intro pid <;>
    exact le_trans (List.length_filter_le _ _) (by simp)

/-- Claim C1 as frozen is false on the code: for method OPTIONS the CORS
pre-flight early-return at line 31 fires before the challenge check at
line 33, so a challenge-carrying OPTIONS request gets the ok-flag body,
not the echoed token.  Concretely, with a body carrying challenge token
"tok", the OPTIONS response body has no challenge field at all. -/
theorem claim_C1_counterexample :
    (handler ⟨"c-name", "c-status", "c-priority", "c-file", "c-due", "c-grant", "c-feedback"⟩
        (fun _ => none)
        ⟨"OPTIONS", some (jobj [("challenge", JValue.jstr "tok")])⟩ ⟨[]⟩).1
      = ⟨200, jobj [("ok", JValue.jbool true)]⟩ ∧
    (jobj [("ok", JValue.jbool true)]).getField "challenge" = none := by
  constructor
  · rfl
  · rfl

/-- Claim C1 (amended): for every inbound request whose method is not
OPTIONS and whose body carries a truthy challenge token, the handler
returns HTTP 200 with the same token echoed back unchanged, before method
validation (any non-OPTIONS method, not just POST) and before any payload
validation, touching no store state and issuing no store operation. -/
theorem claim_C1_amended (cfg : Config) (pj : String → Option JValue) (db : DB)
    (method : String) (b : Option JValue) (tok : JValue)
    (hm : method ≠ "OPTIONS") (hc : oget b "challenge" = some tok)
    (ht : truthy (some tok) = true) :
    handler cfg pj ⟨method, b⟩ db = (⟨200, jobj [("challenge", tok)]⟩, db, []) := by
  unfold handler
  simp [hm, hc, ht, jobj]

/-- Witness for the amended C1: a GET request carrying challenge token
"tok" is answered 200 with the token echoed, with no store traffic. -/
theorem claim_C1_witness :
    handler ⟨"c-name", "c-status", "c-priority", "c-file", "c-due", "c-grant", "c-feedback"⟩
        (fun _ => none)
        ⟨"GET", some (jobj [("challenge", JValue.jstr "tok")])⟩ ⟨[]⟩
      = (⟨200, jobj [("challenge", JValue.jstr "tok")]⟩, ⟨[]⟩, []) :=
  claim_C1_amended _ _ _ _ _ _ (by decide) rfl rfl

/-- Claim C7: every non-challenge POST request whose event descriptor
lacks a pulseId is answered 400 with the missing identifier named in the
response body, the store is unchanged and no store operation is issued. -/
theorem claim_C7 (cfg : Config) (pj : String → Option JValue) (db : DB) (b : Option JValue)
    (hch : truthy (oget b "challenge") = false)
    (hpid : oget (oget (safeParse pj b) "event") "pulseId" = none) :
    handler cfg pj ⟨"POST", b⟩ db =
      (⟨400, jobj [("error", JValue.jstr "Invalid webhook payload - missing pulseId")]⟩,
       db, []) := by
  unfold handler
  simp [hch, hpid, truthy_none, jobj]

/-- Witness for C7: a POST whose event object is empty gets the 400 with
the pulseId-absence message, and the store sees no operation. -/
theorem claim_C7_witness :
    handler ⟨"c-name", "c-status", "c-priority", "c-file", "c-due", "c-grant", "c-feedback"⟩
        (fun _ => none)
        ⟨"POST", some (jobj [("event", jobj [])])⟩ ⟨[]⟩
      = (⟨400, jobj [("error", JValue.jstr "Invalid webhook payload - missing pulseId")]⟩,
         ⟨[]⟩, []) :=
  claim_C7 _ _ _ _ rfl rfl

/-- Claim C6: for a status-column event with value label text "Completed"
applied to a located project, the update payload contains exactly the one
resolved status assignment, scoped to the internal id of the located
project; that row gets status "Completed" with every other attribute
untouched, and every other row is untouched. -/
theorem claim_C6 (cfg : Config) (pj : String → Option JValue) (db : DB)
    (p : Project) (pid : String)
    (hwf : db.WF) (hmem : p ∈ db.rows) (hpm : p.monday_item_id = some pid)
    (hne : pid ≠ "") :
    handler cfg pj
      ⟨"POST", some (jobj [("event", jobj
        [("pulseId", JValue.jstr pid),
         ("columnId", JValue.jstr cfg.statusCol),
         ("value", jobj [("label", jobj [("text", JValue.jstr "Completed")])])])])⟩ db
    = (⟨200, successBody p.id [("status", JValue.jstr "Completed")]⟩,
       ⟨db.rows.map (fun q => if q.id = p.id then { q with status := "Completed" } else q)⟩,
       [Effect.selectByMondayItemId pid,
        Effect.updateRow p.id [("status", JValue.jstr "Completed")]]) := by
  unfold handler
  rw [show (⟨"POST", some (jobj [("event", jobj
        [("pulseId", JValue.jstr pid),
         ("columnId", JValue.jstr cfg.statusCol),
         ("value", jobj [("label", jobj [("text", JValue.jstr "Completed")])])])])⟩ :
      Request).method = "POST" from rfl]
  simp only [jobj, oget_some, oget, Option.bind, JValue.getField]
  simp [truthy, hne, jsToString, findProject_found_monday hwf hmem hpm, dispatch,
        safeParse, oget, JValue.getField, dbUpdate, validAssign, applySet,
        setColumnTotal, successBody, jobj]

/-- Witness for C6: a concrete one-row store, located by monday_item_id
"777"; the status becomes exactly "Completed" and nothing else changes. -/
theorem claim_C6_witness :
    handler ⟨"c-name", "c-status", "c-priority", "c-file", "c-due", "c-grant", "c-feedback"⟩
        (fun _ => none)
        ⟨"POST", some (jobj [("event", jobj
          [("pulseId", JValue.jstr "777"),
           ("columnId", JValue.jstr "c-status"),
           ("value", jobj [("label", jobj [("text", JValue.jstr "Completed")])])])])⟩
        ⟨[⟨"uuid-1", "user-1", some "777", "Proj", "Not Started", "Urgent",
           none, none, none, false⟩]⟩
      = (⟨200, successBody "uuid-1" [("status", JValue.jstr "Completed")]⟩,
         ⟨[⟨"uuid-1", "user-1", some "777", "Proj", "Completed", "Urgent",
            none, none, none, false⟩]⟩,
         [Effect.selectByMondayItemId "777",
          Effect.updateRow "uuid-1" [("status", JValue.jstr "Completed")]]) :=
  (claim_C6 ⟨"c-name", "c-status", "c-priority", "c-file", "c-due", "c-grant", "c-feedback"⟩
      (fun _ => none)
      ⟨[⟨"uuid-1", "user-1", some "777", "Proj", "Not Started", "Urgent",
         none, none, none, false⟩]⟩
      ⟨"uuid-1", "user-1", some "777", "Proj", "Not Started", "Urgent",
       none, none, none, false⟩
      "777"
      (wf_singleton _) (by simp) rfl (by decide)).trans (by rfl)

/-- Claim C2: for a priority-column event whose parsed value carries a
label text, the dispatch resolves the priority attribute to that text with
the pictographic and symbolic glyphs removed and surrounding whitespace
trimmed (`cleanPriority`); in particular the input label text
"🔥 Urgent " yields priority exactly "Urgent", and a located project gets
exactly that priority written. -/
theorem claim_C2 :
    (∀ (cfg : Config) (v raw : Option JValue) (s : String),
        cfg.priorityCol ≠ cfg.statusCol →
        oget (oget v "label") "text" = some (JValue.jstr s) → s ≠ "" →
        dispatch cfg (some (JValue.jstr cfg.priorityCol)) v raw
          = Except.ok [("priority", JValue.jstr (cleanPriority s))]) ∧
    cleanPriority "🔥 Urgent " = "Urgent" ∧
    (∀ (cfg : Config) (pj : String → Option JValue) (db : DB) (p : Project) (pid : String),
        DB.WF db → p ∈ db.rows → p.monday_item_id = some pid → pid ≠ "" →
        cfg.priorityCol ≠ cfg.statusCol →
        handler cfg pj
          ⟨"POST", some (jobj [("event", jobj
            [("pulseId", JValue.jstr pid),
             ("columnId", JValue.jstr cfg.priorityCol),
             ("value", jobj [("label", jobj [("text", JValue.jstr "🔥 Urgent ")])])])])⟩ db
        = (⟨200, successBody p.id [("priority", JValue.jstr "Urgent")]⟩,
           ⟨db.rows.map (fun q =>
              if q.id = p.id then { q with priority := "Urgent" } else q)⟩,
           [Effect.selectByMondayItemId pid,
            Effect.updateRow p.id [("priority", JValue.jstr "Urgent")]])) := by
  refine ⟨?_, by decide, ?_⟩
  · intro cfg v raw s hps hv hs
    simp [dispatch, hps, hv, truthy, hs]
  · intro cfg pj db p pid hwf hmem hpm hne hps
    have hcp : cleanPriority "🔥 Urgent " = "Urgent" := by decide
    unfold handler
    simp only [jobj, oget_some, oget, Option.bind, JValue.getField]
    simp [truthy, hne, jsToString, findProject_found_monday hwf hmem hpm, dispatch,
          safeParse, oget, JValue.getField, hps, hcp, dbUpdate, validAssign, applySet,
          setColumnTotal, successBody, jobj]

/-- Witness for C2: the concrete run with label text "🔥 Urgent " on a
one-row store sets priority to exactly "Urgent". -/
theorem claim_C2_witness :
    handler ⟨"c-name", "c-status", "c-priority", "c-file", "c-due", "c-grant", "c-feedback"⟩
        (fun _ => none)
        ⟨"POST", some (jobj [("event", jobj
          [("pulseId", JValue.jstr "777"),
           ("columnId", JValue.jstr "c-priority"),
           ("value", jobj [("label", jobj [("text", JValue.jstr "🔥 Urgent ")])])])])⟩
        ⟨[⟨"uuid-1", "user-1", some "777", "Proj", "Not Started", "Low",
           none, none, none, false⟩]⟩
      = (⟨200, successBody "uuid-1" [("priority", JValue.jstr "Urgent")]⟩,
         ⟨[⟨"uuid-1", "user-1", some "777", "Proj", "Not Started", "Urgent",
            none, none, none, false⟩]⟩,
         [Effect.selectByMondayItemId "777",
          Effect.updateRow "uuid-1" [("priority", JValue.jstr "Urgent")]]) :=
  (claim_C2.2.2 ⟨"c-name", "c-status", "c-priority", "c-file", "c-due", "c-grant", "c-feedback"⟩
      (fun _ => none)
      ⟨[⟨"uuid-1", "user-1", some "777", "Proj", "Not Started", "Low",
         none, none, none, false⟩]⟩
      ⟨"uuid-1", "user-1", some "777", "Proj", "Not Started", "Low",
       none, none, none, false⟩
      "777"
      (wf_singleton _) (by simp) rfl (by decide) (by decide)).trans (by rfl)

/-- Claim C3: the lookup tries exactly two exact-match queries in order,
monday_item_id first and id second, stops at the first match, and a
project whose monday_item_id is null is still located and updated when
the pulseId equals its internal id. -/
theorem claim_C3 :
    (∀ (db : DB) (pid : String) (p : Project),
        maybeSingle db.rows (byMondayItemId pid) = Except.ok (some p) →
        findProject db pid = (Except.ok (some p), [Effect.selectByMondayItemId pid])) ∧
    (∀ (db : DB) (pid : String),
        maybeSingle db.rows (byMondayItemId pid) = Except.ok none →
        findProject db pid =
          (maybeSingle db.rows (byId pid),
           [Effect.selectByMondayItemId pid, Effect.selectById pid])) ∧
    (∀ (cfg : Config) (pj : String → Option JValue) (db : DB) (p : Project) (n : String),
        DB.WF db → p ∈ db.rows → p.monday_item_id = none →
        (∀ q ∈ db.rows, q.monday_item_id ≠ some p.id) →
        p.id ≠ "" → n ≠ "" →
        cfg.nameCol ≠ cfg.statusCol → cfg.nameCol ≠ cfg.priorityCol →
        cfg.nameCol ≠ cfg.fileCol → cfg.nameCol ≠ cfg.dueDateCol →
        cfg.nameCol ≠ cfg.grantAccessCol → cfg.nameCol ≠ cfg.feedbackCol →
        handler cfg pj
          ⟨"POST", some (jobj [("event", jobj
            [("pulseId", JValue.jstr p.id),
             ("columnId", JValue.jstr cfg.nameCol),
             ("value", jobj [("text", JValue.jstr n)])])])⟩ db
        = (⟨200, successBody p.id [("name", JValue.jstr n)]⟩,
           ⟨db.rows.map (fun q => if q.id = p.id then { q with name := n } else q)⟩,
           [Effect.selectByMondayItemId p.id, Effect.selectById p.id,
            Effect.updateRow p.id [("name", JValue.jstr n)]])) := by
  refine ⟨?_, ?_, ?_⟩
  · intro db pid p h
    unfold findProject
    rw [h]
  · intro db pid h
    unfold findProject
    rw [h]
    cases hm : maybeSingle db.rows (byId pid) with
    | error e => rfl
    | ok r => rfl
  · intro cfg pj db p n hwf hmem hpm hnone hpe hne h1 h2 h3 h4 h5 h6
    unfold handler
    simp only [jobj, oget_some, oget, Option.bind, JValue.getField]
    simp [truthy, hpe, hne, jsToString,
          findProject_found_id hwf hnone hmem rfl, dispatch,
          safeParse, oget, JValue.getField, h1, h2, h3, h4, h5, h6,
          dbUpdate, validAssign, applySet, setColumnTotal, successBody, jobj]

/-- Witness for C3: a one-row store whose project has a null
monday_item_id is located through the id fallback and its name updated. -/
theorem claim_C3_witness :
    handler ⟨"c-name", "c-status", "c-priority", "c-file", "c-due", "c-grant", "c-feedback"⟩
        (fun _ => none)
        ⟨"POST", some (jobj [("event", jobj
          [("pulseId", JValue.jstr "uuid-1"),
           ("columnId", JValue.jstr "c-name"),
           ("value", jobj [("text", JValue.jstr "Renamed")])])])⟩
        ⟨[⟨"uuid-1", "user-1", none, "Proj", "Not Started", "Low",
           none, none, none, false⟩]⟩
      = (⟨200, successBody "uuid-1" [("name", JValue.jstr "Renamed")]⟩,
         ⟨[⟨"uuid-1", "user-1", none, "Renamed", "Not Started", "Low",
            none, none, none, false⟩]⟩,
         [Effect.selectByMondayItemId "uuid-1", Effect.selectById "uuid-1",
          Effect.updateRow "uuid-1" [("name", JValue.jstr "Renamed")]]) :=
  (claim_C3.2.2 ⟨"c-name", "c-status", "c-priority", "c-file", "c-due", "c-grant", "c-feedback"⟩
      (fun _ => none)
      ⟨[⟨"uuid-1", "user-1", none, "Proj", "Not Started", "Low",
         none, none, none, false⟩]⟩
      ⟨"uuid-1", "user-1", none, "Proj", "Not Started", "Low",
       none, none, none, false⟩
      "Renamed"
      (wf_singleton _) (by simp) rfl (by decide) (by decide) (by decide)
      (by decide) (by decide) (by decide) (by decide) (by decide)
      (by decide)).trans (by rfl)

/-- Claim C4: an event whose columnId is not in the recognized set
resolves zero updates, and, more generally, whenever dispatch resolves
zero updates on a located project, the handler performs no write, leaves
the store unchanged, and returns 200 success with an empty update set. -/
theorem claim_C4 :
    (∀ (cfg : Config) (c v raw : Option JValue),
        recognizedColumn cfg c = false → dispatch cfg c v raw = Except.ok []) ∧
    (∀ (cfg : Config) (pj : String → Option JValue) (db : DB) (p : Project)
        (pid : String) (event : JValue),
        DB.WF db → p ∈ db.rows → p.monday_item_id = some pid →
        event.getField "pulseId" = some (JValue.jstr pid) → pid ≠ "" →
        dispatch cfg (event.getField "columnId")
            (safeParse pj (event.getField "value")) (event.getField "value")
          = Except.ok [] →
        handler cfg pj ⟨"POST", some (jobj [("event", event)])⟩ db
          = (⟨200, successBody p.id []⟩, db, [Effect.selectByMondayItemId pid])) := by
  constructor
  · intro cfg c v raw h
    simp [recognizedColumn] at h
    simp [dispatch, h]
  · intro cfg pj db p pid event hwf hmem hpm hev hne hd
    unfold handler
    simp only [jobj, safeParse_obj, oget_some, oget, Option.bind, JValue.getField]
    simp [hev, truthy, hne, jsToString, findProject_found_monday hwf hmem hpm,
          hd, successBody, jobj]

/-- Witness for C4: an event with the unrecognized columnId "weird" on a
located project produces a 200 with an empty update set and no write. -/
theorem claim_C4_witness :
    handler ⟨"c-name", "c-status", "c-priority", "c-file", "c-due", "c-grant", "c-feedback"⟩
        (fun _ => none)
        ⟨"POST", some (jobj [("event", jobj
          [("pulseId", JValue.jstr "777"),
           ("columnId", JValue.jstr "weird"),
           ("value", jobj [("label", jobj [("text", JValue.jstr "x")])])])])⟩
        ⟨[⟨"uuid-1", "user-1", some "777", "Proj", "Not Started", "Low",
           none, none, none, false⟩]⟩
      = (⟨200, successBody "uuid-1" []⟩,
         ⟨[⟨"uuid-1", "user-1", some "777", "Proj", "Not Started", "Low",
            none, none, none, false⟩]⟩,
         [Effect.selectByMondayItemId "777"]) :=
  claim_C4.2 ⟨"c-name", "c-status", "c-priority", "c-file", "c-due", "c-grant", "c-feedback"⟩
      (fun _ => none)
      ⟨[⟨"uuid-1", "user-1", some "777", "Proj", "Not Started", "Low",
         none, none, none, false⟩]⟩
      ⟨"uuid-1", "user-1", some "777", "Proj", "Not Started", "Low",
       none, none, none, false⟩
      "777"
      (jobj [("pulseId", JValue.jstr "777"),
             ("columnId", JValue.jstr "weird"),
             ("value", jobj [("label", jobj [("text", JValue.jstr "x")])])])
      (wf_singleton _) (by simp) rfl rfl (by decide) rfl

/-- Claim C8: when the pulseId matches neither monday_item_id nor id of
any row, the handler answers 404 with that pulseId echoed in the body,
leaves the store unchanged and issues no write; the only store traffic is
the two lookups plus the diagnostic read, so the outcome is terminal. -/
theorem claim_C8 (cfg : Config) (pj : String → Option JValue) (db : DB)
    (event pv : JValue)
    (hev : event.getField "pulseId" = some pv) (ht : truthy (some pv) = true)
    (hm : ∀ q ∈ db.rows, q.monday_item_id ≠ some (jsToString pv))
    (hi : ∀ q ∈ db.rows, q.id ≠ jsToString pv) :
    handler cfg pj ⟨"POST", some (jobj [("event", event)])⟩ db
      = (⟨404, notFoundBody pv⟩, db,
         [Effect.selectByMondayItemId (jsToString pv),
          Effect.selectById (jsToString pv), Effect.selectAllDebug]) := by
  unfold handler
  simp only [jobj, safeParse_obj, oget_some, oget, Option.bind, JValue.getField]
  simp [truthy_none, hev, ht, findProject_none hm hi, notFoundBody, jobj]

/-- Witness for C8: pulseId "999" matches nothing in a one-row store; the
handler returns 404 echoing "999" and writes nothing. -/
theorem claim_C8_witness :
    handler ⟨"c-name", "c-status", "c-priority", "c-file", "c-due", "c-grant", "c-feedback"⟩
        (fun _ => none)
        ⟨"POST", some (jobj [("event", jobj
          [("pulseId", JValue.jstr "999"),
           ("columnId", JValue.jstr "c-status"),
           ("value", jobj [("label", jobj [("text", JValue.jstr "Completed")])])])])⟩
        ⟨[⟨"uuid-1", "user-1", some "777", "Proj", "Not Started", "Low",
           none, none, none, false⟩]⟩
      = (⟨404, notFoundBody (JValue.jstr "999")⟩,
         ⟨[⟨"uuid-1", "user-1", some "777", "Proj", "Not Started", "Low",
            none, none, none, false⟩]⟩,
         [Effect.selectByMondayItemId "999", Effect.selectById "999",
          Effect.selectAllDebug]) :=
  claim_C8 ⟨"c-name", "c-status", "c-priority", "c-file", "c-due", "c-grant", "c-feedback"⟩
      (fun _ => none)
      ⟨[⟨"uuid-1", "user-1", some "777", "Proj", "Not Started", "Low",
         none, none, none, false⟩]⟩
      (jobj [("pulseId", JValue.jstr "999"),
             ("columnId", JValue.jstr "c-status"),
             ("value", jobj [("label", jobj [("text", JValue.jstr "Completed")])])])
      (JValue.jstr "999")
      rfl rfl (by decide) (by decide)

/-- Claim C9: a visibility-column event always resolves a grant_view
update, with no absent-value skip branch: the flag is true exactly when
the parsed value has checked equal to the boolean true or the string
"true", and false in every other case, including a missing or malformed
value. -/
theorem claim_C9 (cfg : Config) (v raw : Option JValue)
    (h1 : cfg.grantAccessCol ≠ cfg.statusCol) (h2 : cfg.grantAccessCol ≠ cfg.priorityCol)
    (h3 : cfg.grantAccessCol ≠ cfg.fileCol) (h4 : cfg.grantAccessCol ≠ cfg.dueDateCol) :
    ∃ b : Bool,
      dispatch cfg (some (JValue.jstr cfg.grantAccessCol)) v raw
        = Except.ok [("grant_view", JValue.jbool b)] ∧
      (b = true ↔ (oget v "checked" = some (JValue.jbool true) ∨
                   oget v "checked" = some (JValue.jstr "true"))) := by
  refine ⟨decide (oget v "checked" = some (JValue.jbool true) ∨
                  oget v "checked" = some (JValue.jstr "true")), ?_, ?_⟩
  · simp [dispatch, h1, h2, h3, h4]
  · simp [decide_eq_true_eq]

/-- Witness for C9: with value containing checked as the string "true",
the resolved flag is true; the update is produced even though nothing
else of the value is inspected. -/
theorem claim_C9_witness :
    dispatch ⟨"c-name", "c-status", "c-priority", "c-file", "c-due", "c-grant", "c-feedback"⟩
        (some (JValue.jstr "c-grant"))
        (some (jobj [("checked", JValue.jstr "true")])) none
      = Except.ok [("grant_view", JValue.jbool true)] := by
  obtain ⟨b, hb, hiff⟩ :=
    claim_C9 ⟨"c-name", "c-status", "c-priority", "c-file", "c-due", "c-grant", "c-feedback"⟩
      (some (jobj [("checked", JValue.jstr "true")])) none
      (by decide) (by decide) (by decide) (by decide)
  rw [hb, hiff.mpr (Or.inr rfl)]

/-- Claim C5: a feedback-column event whose parsed value has a truthy
text field places a feedback attribute into the update payload, although
the persisted projects table defines no feedback column (so the store
model also rejects that assignment). -/
theorem claim_C5 (cfg : Config) (v raw : Option JValue) (tv : JValue)
    (h1 : cfg.feedbackCol ≠ cfg.statusCol) (h2 : cfg.feedbackCol ≠ cfg.priorityCol)
    (h3 : cfg.feedbackCol ≠ cfg.fileCol) (h4 : cfg.feedbackCol ≠ cfg.dueDateCol)
    (h5 : cfg.feedbackCol ≠ cfg.grantAccessCol)
    (hv : oget v "text" = some tv) (ht : truthy (some tv) = true) :
    dispatch cfg (some (JValue.jstr cfg.feedbackCol)) v raw
      = Except.ok [("feedback", tv)] ∧
    "feedback" ∉ projectsColumns ∧
    validAssign "feedback" tv = false := by
  refine ⟨?_, by decide, ?_⟩
  · simp [dispatch, h1, h2, h3, h4, h5, hv, ht]
  · cases tv <;> rfl

/-- Witness for C5: a concrete feedback event resolves the feedback
attribute "Nice work", which names no column of the projects table. -/
theorem claim_C5_witness :
    dispatch ⟨"c-name", "c-status", "c-priority", "c-file", "c-due", "c-grant", "c-feedback"⟩
        (some (JValue.jstr "c-feedback"))
        (some (jobj [("text", JValue.jstr "Nice work")])) none
      = Except.ok [("feedback", JValue.jstr "Nice work")] ∧
    "feedback" ∉ projectsColumns ∧
    validAssign "feedback" (JValue.jstr "Nice work") = false :=
  claim_C5 ⟨"c-name", "c-status", "c-priority", "c-file", "c-due", "c-grant", "c-feedback"⟩
      (some (jobj [("text", JValue.jstr "Nice work")])) none (JValue.jstr "Nice work")
      (by decide) (by decide) (by decide) (by decide) (by decide) rfl rfl

lemma ne_of_ne_some {c : Option JValue} {a b : String}
    (h : ¬ c = some (JValue.jstr a)) (hc : c = some (JValue.jstr b)) : ¬ (b = a) := by
  subst hc
  simpa using h

lemma dispatch_str_ok (cfg : Config) (c : Option JValue) (s : String) :
    ∃ us, dispatch cfg c (some (JValue.jstr s)) (some (JValue.jstr s)) = Except.ok us ∧
      us.all (fun kv => validAssign kv.1 kv.2) = true := by
  unfold dispatch
  by_cases h1 : c = some (JValue.jstr cfg.statusCol)
  · exact ⟨[], by simp [h1, oget, JValue.getField, truthy_none], rfl⟩
  by_cases h2 : c = some (JValue.jstr cfg.priorityCol)
  · exact ⟨[], by simp [h2, ne_of_ne_some h1 h2, oget, JValue.getField, truthy_none], rfl⟩
  by_cases h3 : c = some (JValue.jstr cfg.fileCol)
  · by_cases hs : s = ""
    · exact ⟨[], by simp [h3, ne_of_ne_some h1 h3, ne_of_ne_some h2 h3, hs, truthy], rfl⟩
    · refine ⟨[("file_url", JValue.jstr s), ("file_name", JValue.jstr "Project File")],
        ?_, rfl⟩
      simp [h3, ne_of_ne_some h1 h3, ne_of_ne_some h2 h3, truthy, hs, jsOr, oget,
            JValue.getField]
  by_cases h4 : c = some (JValue.jstr cfg.dueDateCol)
  · exact ⟨[], by simp [h4, ne_of_ne_some h1 h4, ne_of_ne_some h2 h4,
      ne_of_ne_some h3 h4, oget, JValue.getField, truthy_none], rfl⟩
  by_cases h5 : c = some (JValue.jstr cfg.grantAccessCol)
  · refine ⟨[("grant_view", JValue.jbool false)], ?_, rfl⟩
    simp [h5, ne_of_ne_some h1 h5, ne_of_ne_some h2 h5, ne_of_ne_some h3 h5,
          ne_of_ne_some h4 h5, oget, JValue.getField]
  by_cases h6 : c = some (JValue.jstr cfg.feedbackCol)
  · exact ⟨[], by simp [h6, ne_of_ne_some h1 h6, ne_of_ne_some h2 h6,
      ne_of_ne_some h3 h6, ne_of_ne_some h4 h6, ne_of_ne_some h5 h6, oget,
      JValue.getField, truthy_none], rfl⟩
  by_cases h7 : c = some (JValue.jstr cfg.nameCol)
  · exact ⟨[], by simp [h7, ne_of_ne_some h1 h7, ne_of_ne_some h2 h7,
      ne_of_ne_some h3 h7, ne_of_ne_some h4 h7, ne_of_ne_some h5 h7,
      ne_of_ne_some h6 h7, oget, JValue.getField, truthy_none], rfl⟩
  · exact ⟨[], by simp [h1, h2, h3, h4, h5, h6, h7], rfl⟩

/-- Claim C10: value parsing is total; a string value that is not valid
JSON falls back to the raw string, and on a wellformed store such a
malformed value string never by itself produces a 500 response. -/
theorem claim_C10 :
    (∀ (pj : String → Option JValue) (s : String), pj s = none →
        safeParse pj (some (JValue.jstr s)) = some (JValue.jstr s)) ∧
    (∀ (cfg : Config) (pj : String → Option JValue) (req : Request) (db : DB) (s : String),
        DB.WF db →
        oget (oget (safeParse pj req.body) "event") "value" = some (JValue.jstr s) →
        pj s = none →
        (handler cfg pj req db).1.status ≠ 500) := by
  constructor
  · intro pj s h
    simp [safeParse, h]
  · intro cfg pj req db s hwf hval hpj
    have hsps : safeParse pj (some (JValue.jstr s)) = some (JValue.jstr s) := by
      simp [safeParse, hpj]
    obtain ⟨r, effsr, hfp⟩ := findProject_ok hwf
      (jsToString ((oget (oget (safeParse pj req.body) "event") "pulseId").getD JValue.jnull))
    obtain ⟨us, hus, hall⟩ := dispatch_str_ok cfg
      (oget (oget (safeParse pj req.body) "event") "columnId") s
    unfold handler
    by_cases hopt : req.method = "OPTIONS"
    · simp [hopt]
    · by_cases hch : truthy (oget req.body "challenge") = true
      · simp [hopt, hch]
      · by_cases hpost : req.method = "POST"
        · by_cases hpul :
            truthy (oget (oget (safeParse pj req.body) "event") "pulseId") = false
          · simp [hopt, hch, hpost, hpul]
          · cases r with
            | none => simp [hopt, hch, hpost, hpul, hval, hsps, hfp]
            | some project =>
              simp only [hopt, hch, hpost, hpul, hval, hsps, hfp, hus,
                         if_false, ite_false, ite_true]
              simp [hopt, hch, hpost, hpul, dbUpdate, hall]
              split <;> simp
        · simp [hopt, hch, hpost]

/-- Witness for C10: a file-column event whose value is the non-JSON
string "notjson" is processed without a 500 (the raw string is persisted
as the file reference). -/
theorem claim_C10_witness :
    (handler ⟨"c-name", "c-status", "c-priority", "c-file", "c-due", "c-grant", "c-feedback"⟩
        (fun _ => none)
        ⟨"POST", some (jobj [("event", jobj
          [("pulseId", JValue.jstr "777"),
           ("columnId", JValue.jstr "c-file"),
           ("value", JValue.jstr "notjson")])])⟩
        ⟨[⟨"uuid-1", "user-1", some "777", "Proj", "Not Started", "Low",
           none, none, none, false⟩]⟩).1.status ≠ 500 :=
  claim_C10.2 ⟨"c-name", "c-status", "c-priority", "c-file", "c-due", "c-grant", "c-feedback"⟩
      (fun _ => none)
      ⟨"POST", some (jobj [("event", jobj
        [("pulseId", JValue.jstr "777"),
         ("columnId", JValue.jstr "c-file"),
         ("value", JValue.jstr "notjson")])])⟩
      ⟨[⟨"uuid-1", "user-1", some "777", "Proj", "Not Started", "Low",
         none, none, none, false⟩]⟩
      "notjson"
      (wf_singleton _) rfl rfl
